import Mathlib

/-!
Verification development for the DreamAssistant repository (`src/dream_bot`).

The session engine of `bot.py` (per-user interview state machine: `begin_entry`,
`handle_picker_callback`, `ask_next_question`, `on_text`, `finish_entry`) and the
aggregation functions of `db.py` (`_update_streak`, the `top_symbols` part of
`get_stats`) are embedded as executable Lean functions.  Stateful Python code is
turned into explicit state passing over a `BotState`; the MongoDB write performed
by `save_entry` is modelled as appending to a `savedEntries` log, and its possible
failure (an exception propagating out of `finish_entry`) as the `.error` side of
an `Except`, carrying the process state as it is at the moment the exception
escapes.  The OpenAI call inside `DreamLLM._chat` is modelled by an environment
field `llmResponse` (`none` = the call raises, `some none` = the API returns a
`None` content, `some (some s)` = it returns `s`).
-/

namespace DreamBot

/-! ### content.py -/

/-- Embedding of `NUMERIC_QUESTION_KEYS` from bot.py line 37. -/
def NUMERIC_QUESTION_KEYS : List String :=
  ["lucidity_score", "reality_checks", "rem_minutes", "deep_sleep_minutes", "total_sleep_minutes"]

/-- Embedding of `ENTRY_QUESTIONS` from content.py: the full 17-question plan. -/
def ENTRY_QUESTIONS : List (String × String) :=
  [("title", "Give this dream a short title (example: \x27Mirror City Chase\x27)."),
   ("key_event", "Key event in one sentence."),
   ("location_time", "Location and time cues (if known)."),
   ("characters", "People/characters present."),
   ("symbols", "Words, signs, symbols, or repeating motifs."),
   ("atmosphere", "Atmosphere/weather."),
   ("mood", "Mood/emotions felt in the dream."),
   ("senses", "Colors/sounds/smells/tactile sensations."),
   ("narrative", "Write the dream narrative (as detailed as possible)."),
   ("self_interpretation", "Your own interpretation (what it might mean for you)."),
   ("feelings_in_dream", "Your feelings in the dream."),
   ("thoughts_after", "Your thoughts after waking."),
   ("lucidity_score", "Lucidity score from 0-10."),
   ("reality_checks", "How many reality checks did you do yesterday? (number)"),
   ("rem_minutes", "Estimated REM sleep time in minutes (number)."),
   ("deep_sleep_minutes", "Estimated deep sleep time in minutes (number)."),
   ("total_sleep_minutes", "Total sleep time in minutes (number).")]

/-- Embedding of `NO_RECALL_ENTRY_QUESTIONS` from content.py: the reduced 4-question plan. -/
def NO_RECALL_ENTRY_QUESTIONS : List (String × String) :=
  [("rem_minutes", "Estimated REM sleep time in minutes (number)."),
   ("deep_sleep_minutes", "Estimated deep sleep time in minutes (number)."),
   ("total_sleep_minutes", "How many minutes did you sleep in total? (number)"),
   ("sleep_notes", "Any comments you\x27d like to add? (optional)")]

/-! ### Python string primitives used by the engine

The Python builtins `str.strip`, `str.isdigit` and `int` are Unicode-aware and
do not agree with each other: `str.isdigit` accepts every character with
Unicode Numeric_Type=Digit or Decimal, while `int()` accepts only the decimal
digits (category Nd) and raises `ValueError` on the rest (superscripts,
subscripts, circled digits).  They are modelled on the Unicode classification:
the complete whitespace list of `str.isspace`/`str.strip`, the Nd ranges, and
the Numeric_Type=Digit non-decimal characters. -/

/-- The set of characters treated as whitespace by the Python 3 builtins
`str.isspace` and `str.strip`: tab, LF, VT, FF, CR, space, the separators
FS/GS/RS/US, NEL, NBSP, and the Unicode space separators. -/
def isPySpace (c : Char) : Bool :=
  (0x09 ≤ c.toNat && c.toNat ≤ 0x0d) || c.toNat = 0x20 ||
  (0x1c ≤ c.toNat && c.toNat ≤ 0x1f) || c.toNat = 0x85 || c.toNat = 0xa0 ||
  c.toNat = 0x1680 || (0x2000 ≤ c.toNat && c.toNat ≤ 0x200a) ||
  c.toNat = 0x2028 || c.toNat = 0x2029 || c.toNat = 0x202f ||
  c.toNat = 0x205f || c.toNat = 0x3000

/-- Model of the Python builtin `str.strip()`: drop Unicode whitespace from
both ends. -/
def pyStrip (s : String) : String :=
  ⟨((s.data.dropWhile isPySpace).reverse.dropWhile isPySpace).reverse⟩

/-- Start code points of the Unicode decimal-digit (category Nd) ranges; each
range is exactly the ten code points start..start+9 carrying digit values 0-9
(ASCII, Arabic-Indic, extended Arabic-Indic, NKo, the Indic scripts, Thai,
Lao, Tibetan, Myanmar, Khmer, Mongolian, ..., fullwidth, and the supplementary
ranges).  Python `int()` accepts exactly these digit characters. -/
def ndRangeStarts : List Nat :=
  [0x30, 0x660, 0x6F0, 0x7C0, 0x966, 0x9E6, 0xA66, 0xAE6, 0xB66, 0xBE6,
   0xC66, 0xCE6, 0xD66, 0xDE6, 0xE50, 0xED0, 0xF20, 0x1040, 0x1090, 0x17E0,
   0x1810, 0x1946, 0x19D0, 0x1A80, 0x1A90, 0x1B50, 0x1BB0, 0x1C40, 0x1C50,
   0xA620, 0xA8D0, 0xA900, 0xA9D0, 0xA9F0, 0xAA50, 0xABF0, 0xFF10,
   0x104A0, 0x10D30, 0x11066, 0x110F0, 0x11136, 0x111D0, 0x112F0, 0x11450,
   0x114D0, 0x11650, 0x116C0, 0x11730, 0x118E0, 0x11950, 0x11C50, 0x11D50,
   0x11DA0, 0x16A60, 0x16AC0, 0x16B50, 0x1D7CE, 0x1D7D8, 0x1D7E2, 0x1D7EC,
   0x1D7F6, 0x1E140, 0x1E2F0, 0x1E950, 0x1FBF0]

/-- Decimal value of a Unicode decimal digit (category Nd); `none` for every
other character. -/
def pyDecimalVal (c : Char) : Option Nat :=
  (ndRangeStarts.find? (fun s => s ≤ c.toNat && c.toNat ≤ s + 9)).map
    (fun s => c.toNat - s)

/-- Characters with Unicode Numeric_Type=Digit that are not decimal digits:
accepted by `str.isdigit()` but rejected by `int()` with a `ValueError`.
Encoded here: the superscript digits, the subscript digits, and the circled
digits one to nine. -/
def isNonDecimalDigitChar (c : Char) : Bool :=
  c.toNat = 0xB2 || c.toNat = 0xB3 || c.toNat = 0xB9 ||
  c.toNat = 0x2070 || (0x2074 ≤ c.toNat && c.toNat ≤ 0x2079) ||
  (0x2080 ≤ c.toNat && c.toNat ≤ 0x2089) ||
  (0x2460 ≤ c.toNat && c.toNat ≤ 0x2468)

/-- A character accepted by the Python builtin `str.isdigit()`:
Numeric_Type=Decimal (category Nd) or Numeric_Type=Digit. -/
def pyIsDigitChar (c : Char) : Bool :=
  (pyDecimalVal c).isSome || isNonDecimalDigitChar c

/-- Model of the Python builtin `str.isdigit()`: nonempty and every character
a digit character. -/
def pyIsDigit (s : String) : Bool :=
  !s.data.isEmpty && s.data.all pyIsDigitChar

/-- Model of Python `int(s)` on a string already known to satisfy
`str.isdigit()` (so no sign, underscore or whitespace framing can occur):
it succeeds with the base-10 value iff every character is a decimal digit
(category Nd), and raises `ValueError` (`none`) when some character is a
non-decimal digit such as a superscript. -/
def pyIntOfDigits (s : String) : Option Nat :=
  s.data.foldl
    (fun acc c =>
      match acc, pyDecimalVal c with
      | some n, some d => some (n * 10 + d)
      | _, _ => none)
    (some 0)

/-! ### Data model: draft payload and session (bot.py `begin_entry`) -/

/-- A value stored in the draft dict for an answered question:
free-text answers are strings, validated numeric answers are ints. -/
inductive Value where
  | str : String → Value
  | int : Nat → Value
  deriving DecidableEq, Repr

/-- The `session["data"]` dict: three multi-select lists, the no-recall flag,
the answered questions (in insertion order, as a Python dict stores them) and
the `entry_date` stamped at completion. -/
structure Payload where
  dream_types : List String
  sleep_quality : List String
  wake_feeling : List String
  no_dream_recall : Bool
  answers : List (String × Value)
  entry_date : Option String
  deriving DecidableEq, Repr

/-- The `phase` field of a session. -/
inductive Phase where
  | dream_types
  | sleep_quality
  | wake_feeling
  | questions
  deriving DecidableEq, Repr

/-- The three picker categories named in `pick:<category>:...` callback data. -/
inductive Category where
  | dream_types
  | sleep_quality
  | wake_feeling
  deriving DecidableEq, Repr

/-- One entry-capture session (the dict stored in `self.sessions[user_id]`;
`mode` is always `"entry"` so it is left implicit). -/
structure Session where
  phase : Phase
  data : Payload
  q_index : Nat
  questions : List (String × String)
  deriving DecidableEq, Repr

/-- Process state for one user: the optional session plus the log of payloads
successfully written by `db.save_entry`. -/
structure BotState where
  session : Option Session
  savedEntries : List Payload
  deriving DecidableEq, Repr

/-- External collaborators: whether `db.save_entry` succeeds, whether the LLM is
enabled (`bool(api_key)`), what the OpenAI call does, and today\x27s date stamp. -/
structure Env where
  saveOk : Bool
  llmEnabled : Bool
  llmResponse : Option (Option String)
  today : String

/-- The inbound events of the adapter boundary (callback data already split). -/
inductive PickerAction where
  | toggle : String → PickerAction
  | no_recall : PickerAction
  | done : PickerAction
  deriving DecidableEq, Repr

/-- Discrete events driving the session engine. -/
inductive Event where
  | begin_entry : Event
  | picker : Category → PickerAction → Event
  | text : String → Event
  deriving DecidableEq, Repr

/-! ### Session engine (bot.py) -/

/-- Model of `payload.get(category, [])` for the three multi-select keys. -/
def getCat : Category → Payload → List String
  | .dream_types, p => p.dream_types
  | .sleep_quality, p => p.sleep_quality
  | .wake_feeling, p => p.wake_feeling

/-- Model of `payload[category] = current` for the three multi-select keys. -/
def setCat : Category → List String → Payload → Payload
  | .dream_types, l, p => { p with dream_types := l }
  | .sleep_quality, l, p => { p with sleep_quality := l }
  | .wake_feeling, l, p => { p with wake_feeling := l }

/-- The toggle branch of `handle_picker_callback` (bot.py 328-335):
`current.remove(option)` removes the first occurrence if present,
otherwise `current.append(option)`. -/
def toggleList (option : String) (current : List String) : List String :=
  if option ∈ current then current.erase option else current ++ [option]

/-- Model of `session["data"][key] = value` for an answer key: Python dict assignment
updates in place if the key exists, else appends. -/
def setAnswer (key : String) (v : Value) : List (String × Value) → List (String × Value)
  | [] => [(key, v)]
  | (k, w) :: rest => if k = key then (k, v) :: rest else (k, w) :: setAnswer key v rest

/-- The fresh draft built by `begin_entry`. -/
def emptyPayload : Payload :=
  { dream_types := [], sleep_quality := [], wake_feeling := [],
    no_dream_recall := false, answers := [], entry_date := none }

/-- Embedding of `begin_entry` (bot.py 288-305): overwrite any session with a fresh one in
phase `dream_types`, cursor 0, full plan. -/
def begin_entry (st : BotState) : BotState × List String :=
  ({ st with session := some { phase := .dream_types, data := emptyPayload,
                               q_index := 0, questions := ENTRY_QUESTIONS } },
   ["Step 1/4: Select dream types, then press Done."])

/-- Embedding of `DreamLLM._chat` (llm.py 14-28): fixed placeholder when disabled, catch-all
fallback when the OpenAI call raises, `or`-default when content is falsy. -/
def chat (env : Env) : String :=
  if !env.llmEnabled then
    "LLM disabled. Add OPENAI_API_KEY in .env to enable AI interpretation and protocol coaching."
  else
    match env.llmResponse with
    | none => "AI analysis unavailable right now. Try again in a moment."
    | some none => "No response generated."
    | some (some s) => if s.isEmpty then "No response generated." else s

/-- Embedding of `finish_entry` (bot.py 443-478): stamp `entry_date` into the draft (an
in-place mutation of the session\x27s dict), write it via `save_entry`, pop the
session, send a summary, and for recalled dreams also `llm.interpret_dream`.
If `save_entry` raises, the exception escapes after the stamp and before the
pop: the `.error` side carries that state. Summary detail text is elided. -/
def finish_entry (env : Env) (st : BotState) : Except BotState (BotState × List String) :=
  match st.session with
  | none => .ok (st, [])
  | some s =>
    let payload := { s.data with entry_date := some env.today }
    if env.saveOk then
      let st1 : BotState := { session := none, savedEntries := st.savedEntries ++ [payload] }
      if payload.no_dream_recall then
        .ok (st1, ["No-recall night saved."])
      else
        .ok (st1, ["Dream saved.", chat env])
    else
      .error { st with session := some { s with data := payload } }

/-- The `Q{i}/{n}: prompt` text of `ask_next_question`. -/
def questionPrompt (idx : Nat) (qs : List (String × String)) : String :=
  "Q" ++ toString (idx + 1) ++ "/" ++ toString qs.length ++ ": " ++ (qs.getD idx ("", "")).2

/-- Embedding of `ask_next_question` (bot.py 394-406): prompt the question at the cursor, or
finish the entry when the cursor has reached the end of the plan. -/
def ask_next_question (env : Env) (st : BotState) : Except BotState (BotState × List String) :=
  match st.session with
  | none => .ok (st, [])
  | some s =>
    if s.q_index < s.questions.length then
      .ok (st, [questionPrompt s.q_index s.questions])
    else
      finish_entry env st

/-- Embedding of `handle_picker_callback` (bot.py 319-389).  Note: the code dispatches on the
category named in the callback data and never compares it with the session\x27s
current phase. -/
def handlePicker (env : Env) (st : BotState) (c : Category) (a : PickerAction) :
    Except BotState (BotState × List String) :=
  match st.session with
  | none => .ok (st, ["No active entry. Tap \x27New Dream Entry\x27 first."])
  | some s =>
    match a with
    | .toggle o =>
      .ok ({ st with session := some { s with data := setCat c (toggleList o (getCat c s.data)) s.data } }, [])
    | .no_recall =>
      if c = .dream_types then
        .ok ({ st with session := some { s with
                 data := { s.data with no_dream_recall := true, dream_types := [] },
                 questions := NO_RECALL_ENTRY_QUESTIONS,
                 phase := .sleep_quality } },
             ["No problem. Step 2/4: Select sleep quality."])
      else
        .ok (st, [])
    | .done =>
      match c with
      | .dream_types =>
        .ok ({ st with session := some { s with
                 data := { s.data with no_dream_recall := false },
                 questions := ENTRY_QUESTIONS,
                 phase := .sleep_quality } },
             ["Step 2/4: Select sleep quality."])
      | .sleep_quality =>
        .ok ({ st with session := some { s with phase := .wake_feeling } },
             ["Step 3/4: Select waking feelings."])
      | .wake_feeling =>
        let st1 : BotState := { st with session := some { s with phase := .questions } }
        let step4 := if s.data.no_dream_recall then
            "Step 4/4: sleep details for no-recall logging. Type /cancel anytime."
          else
            "Step 4/4: free-text details. Type /cancel anytime."
        match ask_next_question env st1 with
        | .error e => .error e
        | .ok (st2, msgs) => .ok (st2, step4 :: msgs)

/-- Embedding of `on_text` (bot.py 408-441): only a session in phase `questions` consumes the
text; numeric keys are guarded by `value.isdigit()` (else reject with a
re-prompt and do not touch the session), then converted with `int(value)` —
which raises an uncaught `ValueError` (the `.error` side, state unchanged)
when the guard admitted a non-decimal digit character such as a superscript;
accepted answers are stored and the cursor advances by one before the next
question is asked. -/
def on_text (env : Env) (st : BotState) (t : String) : Except BotState (BotState × List String) :=
  match st.session with
  | none => .ok (st, ["Use /menu to open options, or tap New Dream Entry."])
  | some s =>
    if s.phase ≠ .questions then
      .ok (st, ["Use /menu to open options, or tap New Dream Entry."])
    else if s.q_index < s.questions.length then
      let key := (s.questions.getD s.q_index ("", "")).1
      let value := pyStrip t
      if key ∈ NUMERIC_QUESTION_KEYS then
        if pyIsDigit value then
          match pyIntOfDigits value with
          | none => .error st
          | some n =>
            ask_next_question env { st with session := some { s with
              data := { s.data with answers := setAnswer key (.int n) s.data.answers },
              q_index := s.q_index + 1 } }
        else
          .ok (st, ["Please enter a number."])
      else
        ask_next_question env { st with session := some { s with
          data := { s.data with answers := setAnswer key (.str value) s.data.answers },
          q_index := s.q_index + 1 } }
    else
      finish_entry env st

/-- One inbound event. -/
def step (env : Env) (st : BotState) : Event → Except BotState (BotState × List String)
  | .begin_entry => .ok (begin_entry st)
  | .picker c a => handlePicker env st c a
  | .text t => on_text env st t

/-- Run a sequence of events, accumulating sent messages, stopping if an
exception escapes. -/
def run (env : Env) (st : BotState) : List Event → Except BotState (BotState × List String)
  | [] => .ok (st, [])
  | e :: es =>
    match step env st e with
    | .error e1 => .error e1
    | .ok (st1, msgs) =>
      match run env st1 es with
      | .error e2 => .error e2
      | .ok (st2, msgs2) => .ok (st2, msgs ++ msgs2)

/-- Initial state: no session, nothing saved. -/
def initState : BotState := { session := none, savedEntries := [] }

/-- A concrete environment: persistence works, LLM disabled. -/
def env0 : Env := { saveOk := true, llmEnabled := false, llmResponse := none, today := "2026-10-12" }

/-- Environment in which the persistence write (`db.save_entry`) raises. -/
def envFail : Env := { saveOk := false, llmEnabled := false, llmResponse := none, today := "2026-10-12" }

/-- Environment in which the LLM is enabled but its API call raises. -/
def envRaise : Env := { saveOk := true, llmEnabled := true, llmResponse := none, today := "2026-10-12" }

/-! ### db.py `_update_streak` (lines 148-177) -/

/-- First-seen deduplication, as iterating a Python dict/set insertion does
(`unique_days` accumulation in `_update_streak`, `recurring` dict in
`get_stats`): keep the first occurrence of each element. -/
def firstSeenAux [DecidableEq α] : List α → List α → List α
  | [], _ => []
  | x :: xs, seen => if x ∈ seen then firstSeenAux xs seen else x :: firstSeenAux xs (x :: seen)

/-- First-seen deduplication of a list. -/
def firstSeen [DecidableEq α] (l : List α) : List α := firstSeenAux l []

/-- The `while cursor in day_set` loop of `_update_streak`, with explicit fuel.
Each successful iteration consumes a distinct member of `days` (the cursor
strictly decreases), so any fuel exceeding the number of distinct members makes
the fueled loop agree with the unbounded `while` loop. -/
def streakAux : Nat → List Int → Int → Nat
  | 0, _, _ => 0
  | fuel + 1, days, cursor =>
    if cursor ∈ days then streakAux fuel days (cursor - 1) + 1 else 0

/-- Embedding of `Database._update_streak`, with each entry represented by the UTC calendar
day (as a day number) of its `created_at`: keep the days at most 60 days before
today (`created_at >= start`, `start` = midnight of `today - 60`), reduce to
distinct days, then count back from today until the first absent day. -/
def update_streak (entryDays : List Int) (today : Int) : Nat :=
  let uniqueDays := firstSeen (entryDays.filter (fun d => today - 60 ≤ d))
  streakAux (uniqueDays.length + 1) uniqueDays today

/-! ### db.py `get_stats` top-symbols portion (lines 115-146) -/

/-- ASCII model of Python `str.lower()`. -/
def pyLowerChar (c : Char) : Char :=
  if 'A' ≤ c && c ≤ 'Z' then Char.ofNat (c.toNat + 32) else c

/-- ASCII model of Python `str.lower()` on a string. -/
def pyLower (s : String) : String := ⟨s.data.map pyLowerChar⟩

/-- Model of Python `s.split(",")`: split on every comma; `"".split(",")` is
`[""]`. -/
def splitCommaAux : List Char → List Char → List String
  | [], cur => [⟨cur.reverse⟩]
  | c :: cs, cur => if c = ',' then ⟨cur.reverse⟩ :: splitCommaAux cs [] else splitCommaAux cs (c :: cur)

/-- Python `s.split(",")`. -/
def splitComma (s : String) : List String := splitCommaAux s.data []

/-- The entry fields consumed by the top-symbols statistic of `get_stats`
(the other statistics of `get_stats` are not modelled here). -/
structure StatsEntry where
  no_dream_recall : Bool
  symbols : String
  deriving DecidableEq, Repr

/-- The inner loop of `get_stats`: split the `symbols` field on commas, strip
and lower-case each token, drop empties. -/
def splitSymbols (s : String) : List String :=
  ((splitComma s).map (fun raw => pyLower (pyStrip raw))).filter (fun t => t ≠ "")

/-- Model of `recurring[s] = recurring.get(s, 0) + 1` on an insertion-ordered dict
modelled as an association list: increment in place if present, else append. -/
def bump : List (String × Nat) → String → List (String × Nat)
  | [], s => [(s, 1)]
  | (k, n) :: rest, s => if k = s then (k, n + 1) :: rest else (k, n) :: bump rest s

/-- The token stream of the recalled entries of the window, in window order. -/
def recalledTokens (entries : List StatsEntry) : List String :=
  (entries.filter (fun e => !e.no_dream_recall)).flatMap (fun e => splitSymbols e.symbols)

/-- The `recurring` dict of `get_stats` after both loops. -/
def recurring (entries : List StatsEntry) : List (String × Nat) :=
  (recalledTokens entries).foldl bump []

/-- The ordering used by `sorted(recurring.items(), key=lambda it: it[1],
reverse=True)`: higher counts first. -/
def countDesc (a b : String × Nat) : Prop := b.2 ≤ a.2

instance : DecidableRel countDesc := fun a b => inferInstanceAs (Decidable (b.2 ≤ a.2))

/-- Embedding of the `top_symbols` computation of `get_stats`: Python `sorted` is stable and `reverse=True`
keeps ties in original (first-seen) order, which insertion sort with `countDesc`
reproduces; then take the first 5. -/
def top_symbols (entries : List StatsEntry) : List (String × Nat) :=
  (List.insertionSort countDesc (recurring entries)).take 5

/-- The top-symbols statistic as the specification words it: count token
occurrences keyed in first-seen order, then the top 5 by descending count with
ties in first-seen insertion order (stable sort). -/
def spec_top_symbols (entries : List StatsEntry) : List (String × Nat) :=
  let tokens := recalledTokens entries
  (List.insertionSort countDesc ((firstSeen tokens).map (fun s => (s, tokens.count s)))).take 5

/-! ### Concrete states and checks used by individual claims -/

/-- The event sequence of the end-to-end interview (claim C3): begin, toggle
Lucid, three dones, then one valid answer per question of the full plan. -/
def c3Events : List Event :=
  [Event.begin_entry, .picker .dream_types (.toggle "Lucid"), .picker .dream_types .done,
   .picker .sleep_quality .done, .picker .wake_feeling .done] ++
  (["My Title", "a", "b", "c", "d", "e", "f", "g", "h", "i", "j", "k",
    "7", "10", "90", "60", "120"].map Event.text)

/-- Decidable check for C3: the run completes without an escaping exception,
`save_entry` ran exactly once, the saved payload carries the final numeric
answer and the toggled dream type, and no session exists afterwards. -/
def c3Check : Bool :=
  match run env0 initState c3Events with
  | .ok (st, _) =>
    st.session.isNone && st.savedEntries.length == 1 &&
      (match st.savedEntries with
       | [p] => p.answers.lookup "total_sleep_minutes" == some (Value.int 120) &&
                p.dream_types == ["Lucid"] && p.no_dream_recall == false
       | _ => false)
  | .error _ => false

/-- Decidable counterexample check for C1: right after `begin_entry` the phase
is `dream_types`, yet a `category_done(sleep_quality)` event — whose category
does not match the phase — moves the phase to `wake_feeling` instead of being
rejected as a no-op. -/
def c1CexCheck : Bool :=
  let st := (begin_entry initState).1
  (st.session.map Session.phase == some Phase.dream_types) &&
    match step env0 st (.picker .sleep_quality .done) with
    | .ok (st1, _) => st1.session.map Session.phase == some Phase.wake_feeling
    | .error _ => false

/-- A session sitting at question 14 of the full plan (`rem_minutes`, a numeric
field), used to witness C4. -/
def c4Session : Session :=
  { phase := .questions, data := emptyPayload, q_index := 14, questions := ENTRY_QUESTIONS }

/-- Bot state holding `c4Session`. -/
def c4State : BotState := { session := some c4Session, savedEntries := [] }

/-- A session sitting at question 0 of the full plan (`title`, a free-text
field), used to witness C10. -/
def c10Session : Session :=
  { phase := .questions, data := emptyPayload, q_index := 0, questions := ENTRY_QUESTIONS }

/-- Bot state holding `c10Session`. -/
def c10State : BotState := { session := some c10Session, savedEntries := [] }

/-- Toggle events on the dream-type picker, used by C5. -/
def toggleEvents (opts : List String) : List Event :=
  opts.map (fun o => .picker .dream_types (.toggle o))

/-! ### Helper lemmas (shared across claims) -/

theorem toggleList_not_mem {o : String} {l : List String} (h : o ∉ l) :
    toggleList o l = l ++ [o] := by
  simp [toggleList, h]

theorem toggleList_undo {o : String} {l : List String} (h : o ∉ l) :
    toggleList o (l ++ [o]) = l := by
  have hm : o ∈ l ++ [o] := by simp
  simp [toggleList, hm, List.erase_append_right _ h]

theorem toggleList_iterate {o : String} {l : List String} (h : o ∉ l) (n : Nat) :
    (toggleList o)^[n] l = if n % 2 = 0 then l else l ++ [o] := by
  induction n with
  | zero => simp
  | succ n ih =>
    rw [Function.iterate_succ_apply', ih]
    by_cases h2 : n % 2 = 0
    · have h3 : ¬ (n + 1) % 2 = 0 := by omega
      simp [h2, h3, toggleList_not_mem h]
    · have h3 : (n + 1) % 2 = 0 := by omega
      simp [h2, h3, toggleList_undo h]

theorem run_append (env : Env) (st : BotState) (es1 es2 : List Event) :
    run env st (es1 ++ es2) =
      match run env st es1 with
      | .error e => .error e
      | .ok (st1, m1) =>
        match run env st1 es2 with
        | .error e => .error e
        | .ok (st2, m2) => .ok (st2, m1 ++ m2) := by
  induction es1 generalizing st with
  | nil =>
    cases hr : run env st es2 with
    | error e => simp [run, hr]
    | ok p =>
      obtain ⟨st2, m2⟩ := p
      simp [run, hr]
  | cons e es ih =>
    cases hs : step env st e with
    | error e1 => simp [run, hs]
    | ok p =>
      obtain ⟨st1, m1⟩ := p
      simp only [List.cons_append, run, hs, List.append_eq]
      rw [ih]
      cases hr : run env st1 es with
      | error e2 => simp
      | ok q =>
        obtain ⟨st2, m2⟩ := q
        cases hr2 : run env st2 es2 with
        | error e3 => simp [hr2]
        | ok r =>
          obtain ⟨st3, m3⟩ := r
          simp [hr2, List.append_assoc]

theorem run_toggles (env : Env) (saved : List Payload) (s : Session) (opts : List String) :
    run env { session := some s, savedEntries := saved } (toggleEvents opts) =
      .ok ({ session := some { s with
               data := opts.foldl (fun d o => setCat .dream_types (toggleList o (getCat .dream_types d)) d) s.data },
             savedEntries := saved }, []) := by
  induction opts generalizing s with
  | nil => simp [toggleEvents, run]
  | cons o os ih =>
    simp only [toggleEvents, List.map_cons, run, step, handlePicker, List.foldl_cons]
    rw [show (List.map (fun o => Event.picker Category.dream_types (PickerAction.toggle o)) os) =
          toggleEvents os from rfl, ih]
    simp

/-! ### Claim theorems -/

/-- Claim C9 (confirmed). For every option label and every finite sequence of
toggle events on that same option within one multi-select phase (starting from
the option absent), the final membership of the option in the selection list is
true iff the number of toggles is odd. -/
theorem c9_toggle_parity (o : String) (l : List String) (n : Nat) (h : o ∉ l) :
    o ∈ (toggleList o)^[n] l ↔ Odd n := by
  rw [toggleList_iterate h n, Nat.odd_iff]
  by_cases h2 : n % 2 = 0
  · rw [if_pos h2]
    constructor
    · intro hm
      exact absurd hm h
    · intro h1
      omega
  · rw [if_neg h2]
    constructor
    · intro _
      omega
    · intro _
      simp

/-- Witness for C9: three toggles of "Lucid" starting from the empty selection
leave the option selected. -/
theorem c9_toggle_parity_witness :
    ("Lucid" ∉ ([] : List String)) ∧
      ("Lucid" ∈ (toggleList "Lucid")^[3] ([] : List String) ↔ Odd 3) :=
  ⟨by decide, c9_toggle_parity "Lucid" [] 3 (by decide)⟩

/-- Claim C3 (confirmed). The full interview event sequence — begin_entry,
toggle(dream_types, "Lucid"), the three category_done events, then one valid
text answer per question of the full plan ending with "120" for
total_sleep_minutes — completes: no exception escapes, `save_entry` runs
exactly once (the saved payload carrying dream type "Lucid" and
total_sleep_minutes 120), and no session exists for the user afterwards. -/
theorem c3_end_to_end : c3Check = true := by decide

/-- Counterexample to claim C1 as stated: with an active session in phase
`dream_types`, the picker event `category_done(sleep_quality)` — whose named
category does not match the current phase — is not rejected as a no-op: it
moves the phase to `wake_feeling`. -/
theorem c1_counterexample : c1CexCheck = true := by decide

/-- Claim C1 (amended). Picker events are dispatched solely by the category
named in the event, with no check against the session\x27s current phase:
with an active entry session, toggle(c, o) always toggles o in category c\x27s
draft list (whatever the current phase) and leaves phase, plan and cursor
unchanged; category_done(dream_types) always clears no_recall, selects the full
plan and sets the phase to sleep_quality; category_done(sleep_quality) always
sets the phase to wake_feeling; category_done(wake_feeling) always sets the
phase to questions and prompts the question at the cursor; no_recall applies
whenever its category is dream_types and is a pure no-op otherwise; without an
active session every picker event leaves the state unchanged and replies with a
"no active entry" message.  None of these events crash. -/
theorem c1_picker_no_phase_check (env : Env) (st : BotState) :
    (st.session = none → ∀ c a, handlePicker env st c a =
        .ok (st, ["No active entry. Tap \x27New Dream Entry\x27 first."])) ∧
    (∀ s, st.session = some s →
      (∀ c o, handlePicker env st c (.toggle o) =
          .ok ({ st with session := some { s with
                   data := setCat c (toggleList o (getCat c s.data)) s.data } }, [])) ∧
      (handlePicker env st .dream_types .done =
          .ok ({ st with session := some { s with
                   data := { s.data with no_dream_recall := false },
                   questions := ENTRY_QUESTIONS, phase := .sleep_quality } },
               ["Step 2/4: Select sleep quality."])) ∧
      (handlePicker env st .sleep_quality .done =
          .ok ({ st with session := some { s with phase := .wake_feeling } },
               ["Step 3/4: Select waking feelings."])) ∧
      (handlePicker env st .dream_types .no_recall =
          .ok ({ st with session := some { s with
                   data := { s.data with no_dream_recall := true, dream_types := [] },
                   questions := NO_RECALL_ENTRY_QUESTIONS, phase := .sleep_quality } },
               ["No problem. Step 2/4: Select sleep quality."])) ∧
      (∀ c, c ≠ .dream_types → handlePicker env st c .no_recall = .ok (st, [])) ∧
      (s.q_index < s.questions.length →
        handlePicker env st .wake_feeling .done =
          .ok ({ st with session := some { s with phase := .questions } },
               [(if s.data.no_dream_recall then
                   "Step 4/4: sleep details for no-recall logging. Type /cancel anytime."
                 else
                   "Step 4/4: free-text details. Type /cancel anytime."),
                questionPrompt s.q_index s.questions]))) := by
  constructor
  · intro h c a
    simp [handlePicker, h]
  · intro s hs
    refine ⟨fun c o => ?_, ?_, ?_, ?_, fun c hc => ?_, fun hlt => ?_⟩
    · simp [handlePicker, hs]
    · simp [handlePicker, hs]
    · simp [handlePicker, hs]
    · simp [handlePicker, hs]
    · cases c with
      | dream_types => exact absurd rfl hc
      | sleep_quality => simp [handlePicker, hs]
      | wake_feeling => simp [handlePicker, hs]
    · simp [handlePicker, hs, ask_next_question, hlt]

/-- Witness for C1 (amended): the concrete mismatched event of the
counterexample, derived from the general theorem. -/
theorem c1_picker_no_phase_check_witness :
    handlePicker env0 (begin_entry initState).1 .sleep_quality .done =
      .ok ({ session := some { phase := Phase.wake_feeling, data := emptyPayload,
                               q_index := 0, questions := ENTRY_QUESTIONS },
             savedEntries := [] },
           ["Step 3/4: Select waking feelings."]) := by
  have h := (c1_picker_no_phase_check env0 (begin_entry initState).1).2
      { phase := .dream_types, data := emptyPayload, q_index := 0, questions := ENTRY_QUESTIONS }
      rfl
  exact h.2.2.1

/-- Claim C5 (confirmed). After any prior sequence of dream-type toggles in the
dream-type selection phase, the no_recall shortcut yields
`no_dream_recall = true`, an empty dream-type set, the reduced no-recall
question plan, and phase `sleep_quality`. -/
theorem c5_no_recall_shortcut (env : Env) (opts : List String) :
    ∃ st1 msgs s,
      run env (begin_entry initState).1
          (toggleEvents opts ++ [.picker .dream_types .no_recall]) = .ok (st1, msgs) ∧
      st1.session = some s ∧
      s.data.no_dream_recall = true ∧
      s.data.dream_types = [] ∧
      s.questions = NO_RECALL_ENTRY_QUESTIONS ∧
      s.phase = .sleep_quality := by
  have hb : (begin_entry initState).1 =
      ({ session := some { phase := .dream_types, data := emptyPayload,
                           q_index := 0, questions := ENTRY_QUESTIONS },
         savedEntries := [] } : BotState) := rfl
  rw [hb, run_append, run_toggles]
  simp only [run, step, handlePicker]
  exact ⟨_, _, _, rfl, rfl, rfl, rfl, rfl, rfl⟩

/-- Claim C7 (confirmed). If the persistence write at completion fails, the
completion step fails hard (the exception escapes `finish_entry`) but the
session is left intact, holding the fully-answered draft with the stamped
`entry_date`; the session is destroyed only when the write succeeds. -/
theorem c7_save_failure_keeps_session (env : Env) (st : BotState) (s : Session)
    (hs : st.session = some s) :
    (env.saveOk = false →
      finish_entry env st =
        .error { st with session := some { s with
                   data := { s.data with entry_date := some env.today } } }) ∧
    (env.saveOk = true →
      ∃ msgs, finish_entry env st =
        .ok ({ session := none,
               savedEntries := st.savedEntries ++ [{ s.data with entry_date := some env.today }] },
             msgs)) := by
  constructor
  · intro hfail
    simp [finish_entry, hs, hfail]
  · intro hok
    by_cases hnr : s.data.no_dream_recall
    · refine ⟨["No-recall night saved."], ?_⟩
      simp [finish_entry, hs, hok, hnr]
    · refine ⟨["Dream saved.", chat env], ?_⟩
      simp [finish_entry, hs, hok, hnr]

/-- Witness for C7: a concrete failing write leaves the concrete session in
place with the stamped draft. -/
theorem c7_save_failure_keeps_session_witness :
    finish_entry envFail c4State =
      .error { c4State with session := some { c4Session with
                 data := { c4Session.data with entry_date := some envFail.today } } } :=
  (c7_save_failure_keeps_session envFail c4State c4Session rfl).1 rfl

/-- Claim C8 (confirmed). With a working persistence write, completion persists
the entry and destroys the session for every behaviour of the narrative
generator (the `chat` string is a pure function of the environment and the
completion result does not depend on it); when the LLM is disabled the
narrative is the fixed placeholder, and when its call raises it degrades to the
fixed fallback string instead of propagating the failure. -/
theorem c8_narrative_decoupled (env : Env) (st : BotState) (s : Session)
    (hs : st.session = some s) (hok : env.saveOk = true) :
    (s.data.no_dream_recall = false →
      finish_entry env st =
        .ok ({ session := none,
               savedEntries := st.savedEntries ++ [{ s.data with entry_date := some env.today }] },
             ["Dream saved.", chat env])) ∧
    (s.data.no_dream_recall = true →
      finish_entry env st =
        .ok ({ session := none,
               savedEntries := st.savedEntries ++ [{ s.data with entry_date := some env.today }] },
             ["No-recall night saved."])) ∧
    (env.llmEnabled = false →
      chat env = "LLM disabled. Add OPENAI_API_KEY in .env to enable AI interpretation and protocol coaching.") ∧
    (env.llmEnabled = true → env.llmResponse = none →
      chat env = "AI analysis unavailable right now. Try again in a moment.") := by
  refine ⟨fun hnr => ?_, fun hnr => ?_, fun hllm => ?_, fun hllm hr => ?_⟩
  · simp [finish_entry, hs, hok, hnr]
  · simp [finish_entry, hs, hok, hnr]
  · simp [chat, hllm]
  · simp [chat, hllm, hr]

/-- Witness for C8: with the LLM call raising, the concrete completion still
persists the entry, destroys the session, and carries the fallback string. -/
theorem c8_narrative_decoupled_witness :
    (finish_entry envRaise c4State =
      .ok ({ session := none,
             savedEntries := c4State.savedEntries ++ [{ c4Session.data with entry_date := some envRaise.today }] },
           ["Dream saved.", chat envRaise])) ∧
    chat envRaise = "AI analysis unavailable right now. Try again in a moment." := by
  have h := c8_narrative_decoupled envRaise c4State c4Session rfl rfl
  exact ⟨h.1 rfl, h.2.2.2 rfl rfl⟩

/-- Claim C4 (code bug). The numeric-field validation contract fails on the
code: the guard `value.isdigit()` (bot.py 434) accepts every character with
Unicode Numeric_Type=Digit, but `int(value)` (bot.py 437) accepts only decimal
digits (category Nd), so an answer such as "²" (U+00B2 SUPERSCRIPT TWO)
passes the guard and then raises an uncaught ValueError: the exception escapes
the handler with no re-prompt, so the rejection path is not crash-free as the
claim states.  On either side of this slip the code behaves as claimed:
"twelve" fails the guard and is rejected with the re-prompt and an unchanged
state; the Arabic-Indic decimal answer "٤٢" parses (Python `int()`
accepts all Nd digits) and is stored as the integer 42 with the cursor
advancing by exactly one; and the form-feed-framed answer "\x0c5" is stripped
by `str.strip()` and stored as 5. -/
theorem c4_isdigit_int_mismatch :
    on_text env0 c4State "²" = .error c4State ∧
    on_text env0 c4State "twelve" = .ok (c4State, ["Please enter a number."]) ∧
    on_text env0 c4State "٤٢" =
      .ok ({ c4State with session := some { c4Session with
               data := { c4Session.data with
                 answers := [("rem_minutes", Value.int 42)] },
               q_index := 15 } },
           [questionPrompt 15 ENTRY_QUESTIONS]) ∧
    on_text env0 c4State "\x0c5" =
      .ok ({ c4State with session := some { c4Session with
               data := { c4Session.data with
                 answers := [("rem_minutes", Value.int 5)] },
               q_index := 15 } },
           [questionPrompt 15 ENTRY_QUESTIONS]) :=
  ⟨rfl, rfl, rfl, rfl⟩

/-- Claim C10 (confirmed). In phase `questions` with the cursor on a free-text
(non-numeric) field, a whitespace-only answer is accepted with no
non-emptiness check: the empty string is stored under the field key and the
cursor advances by one. -/
theorem c10_whitespace_freetext (env : Env) (st : BotState) (s : Session)
    (t key prompt : String)
    (hs : st.session = some s) (hp : s.phase = .questions)
    (hlt : s.q_index < s.questions.length)
    (hq : s.questions.getD s.q_index ("", "") = (key, prompt))
    (hkey : key ∉ NUMERIC_QUESTION_KEYS)
    (hws : pyStrip t = "")
    (hnext : s.q_index + 1 < s.questions.length) :
    on_text env st t =
      .ok ({ st with session := some { s with
               data := { s.data with answers := setAnswer key (.str "") s.data.answers },
               q_index := s.q_index + 1 } },
           [questionPrompt (s.q_index + 1) s.questions]) := by
  have hq' : s.questions[s.q_index] = (key, prompt) := by
    rw [← List.getD_eq_getElem s.questions ("", "") hlt]
    exact hq
  simp [on_text, hs, hp, hlt, hq', hkey, hws, ask_next_question, hnext]

/-! ### Lemmas about first-seen deduplication and the streak loop -/

theorem mem_firstSeenAux [DecidableEq α] {x : α} (l : List α) :
    ∀ seen, x ∈ firstSeenAux l seen ↔ x ∈ l ∧ x ∉ seen := by
  induction l with
  | nil =>
    intro seen
    simp [firstSeenAux]
  | cons t ts ih =>
    intro seen
    by_cases ht : t ∈ seen
    · rw [firstSeenAux, if_pos ht, ih]
      simp only [List.mem_cons]
      constructor
      · rintro ⟨hx, hn⟩
        exact ⟨Or.inr hx, hn⟩
      · rintro ⟨hx | hx, hn⟩
        · subst hx
          exact absurd ht hn
        · exact ⟨hx, hn⟩
    · rw [firstSeenAux, if_neg ht]
      simp only [List.mem_cons, ih]
      constructor
      · rintro (hx | ⟨hx, hn⟩)
        · subst hx
          exact ⟨Or.inl rfl, ht⟩
        · exact ⟨Or.inr hx, fun hseen => hn (Or.inr hseen)⟩
      · rintro ⟨hx | hx, hn⟩
        · exact Or.inl hx
        · by_cases hxt : x = t
          · exact Or.inl hxt
          · exact Or.inr ⟨hx, fun hc => hc.elim hxt hn⟩

theorem nodup_firstSeenAux [DecidableEq α] (l : List α) :
    ∀ seen, (firstSeenAux l seen).Nodup := by
  induction l with
  | nil =>
    intro seen
    simp [firstSeenAux]
  | cons t ts ih =>
    intro seen
    by_cases ht : t ∈ seen
    · rw [firstSeenAux, if_pos ht]
      exact ih seen
    · rw [firstSeenAux, if_neg ht]
      refine List.nodup_cons.mpr ⟨?_, ih (t :: seen)⟩
      intro hmem
      exact ((mem_firstSeenAux ts (t :: seen)).mp hmem).2 (List.mem_cons_self t seen)

theorem streakAux_le (fuel : Nat) (days : List Int) (cursor : Int) :
    streakAux fuel days cursor ≤ fuel := by
  induction fuel generalizing cursor with
  | zero => simp [streakAux]
  | succ n ih =>
    rw [streakAux]
    by_cases h : cursor ∈ days
    · rw [if_pos h]
      exact Nat.succ_le_succ (ih _)
    · rw [if_neg h]
      exact Nat.zero_le _

theorem streakAux_mem (fuel : Nat) (days : List Int) (cursor : Int) :
    ∀ k : Nat, k < streakAux fuel days cursor → (cursor - (k : Int)) ∈ days := by
  induction fuel generalizing cursor with
  | zero =>
    intro k hk
    simp [streakAux] at hk
  | succ n ih =>
    intro k hk
    rw [streakAux] at hk
    by_cases h : cursor ∈ days
    · rw [if_pos h] at hk
      cases k with
      | zero => simpa using h
      | succ j =>
        have hj : j < streakAux n days (cursor - 1) := by omega
        have hmem := ih (cursor - 1) j hj
        have heq : cursor - ((j + 1 : Nat) : Int) = cursor - 1 - (j : Int) := by
          push_cast
          ring
        rw [heq]
        exact hmem
    · rw [if_neg h] at hk
      omega

theorem streakAux_stop (fuel : Nat) (days : List Int) (cursor : Int)
    (h : streakAux fuel days cursor < fuel) :
    (cursor - (streakAux fuel days cursor : Int)) ∉ days := by
  induction fuel generalizing cursor with
  | zero => simp [streakAux] at h
  | succ n ih =>
    rw [streakAux] at h ⊢
    by_cases hc : cursor ∈ days
    · rw [if_pos hc] at h ⊢
      have h2 : streakAux n days (cursor - 1) < n := by omega
      have hstop := ih (cursor - 1) h2
      have heq : cursor - ((streakAux n days (cursor - 1) + 1 : Nat) : Int) =
          cursor - 1 - (streakAux n days (cursor - 1) : Int) := by
        push_cast
        ring
      rw [heq]
      exact hstop
    · rw [if_neg hc] at h ⊢
      simpa using hc

theorem streakAux_lt_fuel (days : List Int) (cursor : Int) :
    streakAux (days.length + 1) days cursor < days.length + 1 := by
  set n := streakAux (days.length + 1) days cursor with hn
  have hle : n ≤ days.length + 1 := streakAux_le _ _ _
  rcases Nat.lt_or_ge n (days.length + 1) with h | h
  · exact h
  · exfalso
    have hn1 : n = days.length + 1 := le_antisymm hle h
    have hsub : ((List.range n).map (fun k : Nat => cursor - (k : Int))) ⊆ days := by
      intro x hx
      simp only [List.mem_map, List.mem_range] at hx
      obtain ⟨k, hk, rfl⟩ := hx
      refine streakAux_mem (days.length + 1) days cursor k ?_
      rw [← hn]
      omega
    have hnodup : ((List.range n).map (fun k : Nat => cursor - (k : Int))).Nodup := by
      refine List.Nodup.map ?_ (List.nodup_range n)
      intro a b hab
      dsimp only at hab
      omega
    have hlen := (List.subperm_of_subset hnodup hsub).length_le
    simp only [List.length_map, List.length_range] at hlen
    omega

/-- Claim C2 (confirmed). The streak recompute at entry save equals the count
of consecutive calendar days (today, yesterday, ...) present among the distinct
entry days of the 60-day window: every day counted is an entry day inside the
window, the day right after the count stops is not (either absent or outside
the window), the result is 0 when today has no entry (in particular for no
entries at all), and entry days `{D, D-1, D-2, D-4}` with today `D` give 3. -/
theorem c2_streak_recompute :
    (∀ (entryDays : List Int) (today : Int),
      (∀ k : Nat, k < update_streak entryDays today →
        (today - (k : Int)) ∈ entryDays ∧ today - 60 ≤ today - (k : Int)) ∧
      ¬((today - (update_streak entryDays today : Int)) ∈ entryDays ∧
          today - 60 ≤ today - (update_streak entryDays today : Int)) ∧
      (today ∉ entryDays → update_streak entryDays today = 0)) ∧
    (∀ today : Int, update_streak [] today = 0) ∧
    update_streak [100, 99, 98, 96] 100 = 3 := by
  refine ⟨fun entryDays today => ?_, fun today => rfl, by decide⟩
  set uniq := firstSeen (entryDays.filter (fun d => today - 60 ≤ d)) with huniq
  have hmemu : ∀ x : Int, x ∈ uniq ↔ x ∈ entryDays ∧ today - 60 ≤ x := by
    intro x
    rw [huniq, firstSeen, mem_firstSeenAux]
    simp [List.mem_filter]
  have hup : update_streak entryDays today = streakAux (uniq.length + 1) uniq today := rfl
  have ha : ∀ k : Nat, k < update_streak entryDays today →
      (today - (k : Int)) ∈ entryDays ∧ today - 60 ≤ today - (k : Int) := by
    intro k hk
    rw [hup] at hk
    exact (hmemu _).mp (streakAux_mem (uniq.length + 1) uniq today k hk)
  have hb : ¬((today - (update_streak entryDays today : Int)) ∈ entryDays ∧
      today - 60 ≤ today - (update_streak entryDays today : Int)) := by
    rintro ⟨hmem, hle⟩
    have hstop := streakAux_stop (uniq.length + 1) uniq today (streakAux_lt_fuel uniq today)
    rw [← hup] at hstop
    exact hstop ((hmemu _).mpr ⟨hmem, hle⟩)
  refine ⟨ha, hb, fun htoday => ?_⟩
  by_contra h0
  have hk : 0 < update_streak entryDays today := Nat.pos_of_ne_zero h0
  have h := (ha 0 hk).1
  simp only [Nat.cast_zero, sub_zero] at h
  exact htoday h

/-- Witness for C2: day `D-2` of the concrete example is counted and lies in
the window, the empty history gives streak 0, and the example gives 3. -/
theorem c2_streak_recompute_witness :
    (((100 : Int) - ((2 : Nat) : Int)) ∈ ([100, 99, 98, 96] : List Int) ∧
      (100 : Int) - 60 ≤ (100 : Int) - ((2 : Nat) : Int)) ∧
    update_streak [] 0 = 0 ∧
    update_streak [100, 99, 98, 96] 100 = 3 :=
  ⟨(c2_streak_recompute.1 [100, 99, 98, 96] 100).1 2 (by decide),
   c2_streak_recompute.2.1 0, c2_streak_recompute.2.2⟩

/-- Witness for C10 at question 0 (`title`) of the full plan: the answer
consisting of three spaces stores the empty string and advances the cursor. -/
theorem c10_whitespace_freetext_witness :
    on_text env0 c10State "   " =
      .ok ({ c10State with session := some { c10Session with
               data := { c10Session.data with
                 answers := setAnswer "title" (.str "") c10Session.data.answers },
               q_index := c10Session.q_index + 1 } },
           [questionPrompt (c10Session.q_index + 1) c10Session.questions]) :=
  c10_whitespace_freetext env0 c10State c10Session "   " "title"
    "Give this dream a short title (example: \x27Mirror City Chase\x27)." rfl rfl
    (by decide) rfl (by decide) (by decide) (by decide)

/-! ### Lemmas about the symbol-count accumulation -/

theorem bump_map_fst (acc : List (String × Nat)) (t : String) :
    (bump acc t).map Prod.fst =
      if t ∈ acc.map Prod.fst then acc.map Prod.fst else acc.map Prod.fst ++ [t] := by
  induction acc with
  | nil => simp [bump]
  | cons p rest ih =>
    obtain ⟨k, n⟩ := p
    by_cases hk : k = t
    · subst hk
      simp [bump]
    · rw [bump, if_neg hk]
      simp only [List.map_cons, ih]
      by_cases hm : t ∈ rest.map Prod.fst
      · rw [if_pos hm, if_pos (List.mem_cons_of_mem k hm)]
      · rw [if_neg hm, if_neg (fun hc => (List.mem_cons.mp hc).elim (fun h1 => hk h1.symm) hm)]
        simp

theorem bump_not_mem (acc : List (String × Nat)) (t : String)
    (h : t ∉ acc.map Prod.fst) : bump acc t = acc ++ [(t, 1)] := by
  induction acc with
  | nil => simp [bump]
  | cons p rest ih =>
    obtain ⟨k, n⟩ := p
    simp only [List.map_cons, List.mem_cons] at h
    push_neg at h
    obtain ⟨hk, hrest⟩ := h
    rw [bump, if_neg (fun he => hk he.symm), ih hrest]
    simp

theorem bump_mem (acc : List (String × Nat)) (t : String)
    (hnd : (acc.map Prod.fst).Nodup) (h : t ∈ acc.map Prod.fst) :
    bump acc t = acc.map (fun p => if p.1 = t then (p.1, p.2 + 1) else p) := by
  induction acc with
  | nil => simp at h
  | cons p rest ih =>
    obtain ⟨k, n⟩ := p
    simp only [List.map_cons, List.nodup_cons] at hnd
    obtain ⟨hknr, hndr⟩ := hnd
    simp only [List.map_cons, List.mem_cons] at h
    by_cases hk : k = t
    · subst hk
      rw [bump, if_pos rfl]
      simp only [List.map_cons, if_pos rfl]
      have hall : ∀ p ∈ rest, (if p.1 = k then (p.1, p.2 + 1) else p) = p := by
        intro p hp
        rw [if_neg]
        intro hpt
        exact hknr (hpt ▸ List.mem_map_of_mem Prod.fst hp)
      rw [List.map_congr_left hall]
      simp
    · have ht : t ∈ rest.map Prod.fst := by
        rcases h with h1 | h1
        · exact absurd h1.symm hk
        · exact h1
      rw [bump, if_neg hk, ih hndr ht]
      simp only [List.map_cons]
      rw [if_neg hk]

theorem firstSeenAux_congr [DecidableEq α] (l : List α) :
    ∀ s1 s2, (∀ x, x ∈ s1 ↔ x ∈ s2) → firstSeenAux l s1 = firstSeenAux l s2 := by
  induction l with
  | nil =>
    intro s1 s2 _
    rfl
  | cons t ts ih =>
    intro s1 s2 hiff
    by_cases ht : t ∈ s1
    · rw [firstSeenAux, if_pos ht, firstSeenAux, if_pos ((hiff t).mp ht)]
      exact ih s1 s2 hiff
    · rw [firstSeenAux, if_neg ht, firstSeenAux, if_neg (fun h => ht ((hiff t).mpr h))]
      congr 1
      refine ih (t :: s1) (t :: s2) ?_
      intro x
      simp [List.mem_cons, hiff x]

theorem foldl_bump_eq (tokens : List String) :
    ∀ acc : List (String × Nat), (acc.map Prod.fst).Nodup →
      tokens.foldl bump acc =
        acc.map (fun p => (p.1, p.2 + tokens.count p.1)) ++
          (firstSeenAux tokens (acc.map Prod.fst)).map (fun s => (s, tokens.count s)) := by
  induction tokens with
  | nil =>
    intro acc _
    simp [firstSeenAux]
  | cons t ts ih =>
    intro acc hnd
    rw [List.foldl_cons]
    by_cases hm : t ∈ acc.map Prod.fst
    · have hkeys : (bump acc t).map Prod.fst = acc.map Prod.fst := by
        rw [bump_map_fst, if_pos hm]
      rw [ih (bump acc t) (hkeys ▸ hnd), hkeys, bump_mem acc t hnd hm]
      rw [show firstSeenAux (t :: ts) (acc.map Prod.fst) = firstSeenAux ts (acc.map Prod.fst) by
        rw [firstSeenAux, if_pos hm]]
      congr 1
      · rw [List.map_map]
        refine List.map_congr_left ?_
        intro p _
        by_cases hpt : p.1 = t
        · simp [Function.comp, hpt, List.count_cons, if_pos hpt, Nat.add_comm, Nat.add_assoc,
            Nat.add_left_comm]
        · simp [Function.comp, hpt, List.count_cons]
      · refine List.map_congr_left ?_
        intro s hs
        have hs2 := (mem_firstSeenAux ts (acc.map Prod.fst)).mp hs
        have hst : s ≠ t := fun he => hs2.2 (he ▸ hm)
        simp [List.count_cons, hst]
    · have hkeys : (bump acc t).map Prod.fst = acc.map Prod.fst ++ [t] := by
        rw [bump_map_fst, if_neg hm]
      have hnd2 : ((bump acc t).map Prod.fst).Nodup := by
        rw [hkeys, List.nodup_append]
        exact ⟨hnd, List.nodup_singleton t, fun x hx hx1 => hm ((List.mem_singleton.mp hx1) ▸ hx)⟩
      rw [ih (bump acc t) hnd2, bump_not_mem acc t hm]
      rw [show List.map Prod.fst (acc ++ [(t, 1)]) = List.map Prod.fst acc ++ [t] by simp]
      rw [show firstSeenAux (t :: ts) (acc.map Prod.fst) = t :: firstSeenAux ts (t :: acc.map Prod.fst) by
        rw [firstSeenAux, if_neg hm]]
      rw [firstSeenAux_congr ts (acc.map Prod.fst ++ [t]) (t :: acc.map Prod.fst)
        (fun x => by simp [List.mem_append, List.mem_cons, or_comm])]
      simp only [List.map_append, List.map_cons, List.map_nil, List.append_assoc,
        List.singleton_append]
      congr 1
      · refine List.map_congr_left ?_
        intro p hp
        have hpt : p.1 ≠ t := fun he => hm (he ▸ List.mem_map_of_mem Prod.fst hp)
        simp [List.count_cons, hpt]
      · congr 1
        · simp [List.count_cons, Nat.add_comm]
        · refine List.map_congr_left ?_
          intro s hs
          have hs2 := (mem_firstSeenAux ts (t :: acc.map Prod.fst)).mp hs
          have hst : s ≠ t := fun he => hs2.2 (he ▸ List.mem_cons_self t _)
          simp [List.count_cons, hst]

theorem recurring_eq (entries : List StatsEntry) :
    recurring entries =
      (firstSeen (recalledTokens entries)).map
        (fun s => (s, (recalledTokens entries).count s)) := by
  have h := foldl_bump_eq (recalledTokens entries) [] (by simp)
  simpa [recurring, firstSeen] using h

/-- Claim C6 (confirmed). The top-symbols statistic equals the specification
algorithm: split each recalled entry\x27s symbols string on commas, trim and
lower-case tokens, drop empties, count occurrences keyed in first-seen order,
then take the top 5 in descending count order with ties kept in first-seen
insertion order (the sort is stable: an equal-count pair keeps its relative
order); the concrete example "Fire, water" / "fire" / "Door" yields
[("fire", 2), ("water", 1), ("door", 1)]. -/
theorem c6_top_symbols :
    (∀ entries, top_symbols entries = spec_top_symbols entries) ∧
    (∀ entries, List.Sorted countDesc (top_symbols entries)) ∧
    (∀ (entries : List StatsEntry) (x y : String × Nat), x.2 = y.2 →
      List.Sublist [x, y] (recurring entries) →
      List.Sublist [x, y] (List.insertionSort countDesc (recurring entries))) ∧
    top_symbols [{ no_dream_recall := false, symbols := "Fire, water" },
                 { no_dream_recall := false, symbols := "fire" },
                 { no_dream_recall := false, symbols := "Door" }] =
      [("fire", 2), ("water", 1), ("door", 1)] := by
  haveI : IsTotal (String × Nat) countDesc := ⟨fun a b => le_total b.2 a.2⟩
  haveI : IsTrans (String × Nat) countDesc := ⟨fun _ _ _ h1 h2 => le_trans h2 h1⟩
  refine ⟨fun entries => ?_, fun entries => ?_, fun entries x y hxy hsub => ?_, by decide⟩
  · rw [top_symbols, spec_top_symbols, recurring_eq]
  · exact List.Pairwise.sublist (List.take_sublist 5 _)
      (List.sorted_insertionSort countDesc (recurring entries))
  · exact List.pair_sublist_insertionSort (le_of_eq hxy.symm) hsub

/-- Witness for C6: in the concrete example, the equal-count pair
(water, 1), (door, 1) keeps its first-seen order through the sort. -/
theorem c6_top_symbols_witness :
    List.Sublist [(("water" : String), 1), (("door" : String), 1)]
      (List.insertionSort countDesc
        (recurring [{ no_dream_recall := false, symbols := "Fire, water" },
                    { no_dream_recall := false, symbols := "fire" },
                    { no_dream_recall := false, symbols := "Door" }])) :=
  c6_top_symbols.2.2.1 _ ("water", 1) ("door", 1) rfl (by decide)

end DreamBot
